import Mathlib

/-!
Shallow embedding of the crowd-density backend (`backend/main.py`) and
verification of its specified behaviour.

Numeric conventions: Python floats are modelled as exact rationals (ℚ).
At the magnitudes the program handles (image sides capped at 1280 by the
thumbnail step, integer percentage inputs, small thresholds) the double
computations performed by the code are exact or stay within the same unit
interval as the exact-rational value, so truncations and comparisons agree
with the exact-rational model. Python `int(x)` truncates toward zero,
which on an exact integer quotient is `Int.tdiv`.
-/

namespace CrowdDensity

/-- A decoded image. The constructor `base` is a decoded frame of the given
size; `crop` is the numpy slice `img[y0:y1, x0:x1]` taken by `apply_roi`.
Pixel data is abstracted; the YOLO model is quantified over as an oracle
on `Img`, so a crop is a distinct image value from its parent. -/
inductive Img where
  | base (width height : ℕ) (id : ℕ)
  | crop (parent : Img) (x0 y0 x1 y1 : ℤ)
deriving DecidableEq, Repr

/-- Length of the numpy slice `a:b` over an axis of length `n`: negative
indices count from the end, indices clip to `[0, n]`, and an empty or
reversed slice has length 0. -/
def npSliceLen (n : ℕ) (a b : ℤ) : ℕ :=
  let norm : ℤ → ℤ := fun i => if i < 0 then max 0 ((n : ℤ) + i) else min i (n : ℤ)
  (norm b - norm a).toNat

/-- Width of an image (`img.shape[1]`). -/
def Img.width : Img → ℕ
  | .base w _ _ => w
  | .crop p x0 _ x1 _ => npSliceLen p.width x0 x1

/-- Height of an image (`img.shape[0]`). -/
def Img.height : Img → ℕ
  | .base _ h _ => h
  | .crop p _ y0 _ y1 => npSliceLen p.height y0 y1

/-- One raw box of the YOLO model output: class id, the four corners
(already `int()`-truncated, as `detect_people` does with `map(int, ...)`)
and a confidence score. -/
structure RawDet where
  cls : ℕ
  x1 : ℤ
  y1 : ℤ
  x2 : ℤ
  y2 : ℤ
  conf : ℚ
deriving DecidableEq, Repr

/-- The `BoundingBox` pydantic model (main.py 123-129). -/
structure BoundingBox where
  x1 : ℤ
  y1 : ℤ
  x2 : ℤ
  y2 : ℤ
  confidence : ℚ
deriving DecidableEq, Repr

/-- The dict appended for one kept detection (main.py 168-176). -/
def toBox (d : RawDet) : BoundingBox :=
  { x1 := d.x1, y1 := d.y1, x2 := d.x2, y2 := d.y2, confidence := d.conf }

/-- Source `detect_people` (main.py 145-183): loop over the model's boxes,
keeping those with `int(box.cls[0]) == 0` and counting while appending.
The YOLO inference itself is the oracle output `dets`. -/
def detect_people (dets : List RawDet) : ℕ × List BoundingBox :=
  dets.foldl
    (fun acc d => if d.cls = 0 then (acc.1 + 1, acc.2 ++ [toBox d]) else acc)
    (0, [])

/-- Python `round` on an exact rational: round half to even. -/
def roundHalfEven (q : ℚ) : ℤ :=
  let f := ⌊q⌋
  let r := q - f
  if r < 1 / 2 then f
  else if 1 / 2 < r then f + 1
  else if 2 ∣ f then f else f + 1

/-- Python `round(q, 2)`. -/
def round2 (q : ℚ) : ℚ := (roundHalfEven (q * 100) : ℚ) / 100

/-- Python `f"{q:.2f}"`: the numeric value rendered is the 2-decimal
rounding; the textual padding with trailing zeros is abstracted (no claim
concerns the digits of the message text). -/
def fmt2 (q : ℚ) : String := toString (round2 q)

/-- Source `calculate_density_status` (main.py 185-197). -/
def calculate_density_status (density warn_threshold danger_threshold : ℚ) :
    String × String :=
  if danger_threshold ≤ density then
    ("danger", "⚠️ 危險！密度達 " ++ fmt2 density ++ " 人/㎡，請立即疏散人群")
  else if warn_threshold ≤ density then
    ("warning", "⚠️ 警告！密度達 " ++ fmt2 density ++ " 人/㎡，建議控制人流")
  else
    ("normal", "✅ 正常。當前密度 " ++ fmt2 density ++ " 人/㎡")

/-- Source `apply_roi` (main.py 199-217). The Python `int(W * p / 100.0)`
is exact-rational truncation toward zero, i.e. `Int.tdiv (W * p) 100`.
Note the source clamps `x0, y0` only from below by 0 and `x1, y1` only
from above by `W, H`; no ordering between `x0` and `x1` is enforced. -/
def apply_roi (img : Img) (x0p y0p x1p y1p : ℤ) : Img × (ℤ × ℤ × ℤ × ℤ) :=
  let W : ℤ := img.width
  let H : ℤ := img.height
  let x0 := max 0 (Int.tdiv (W * x0p) 100)
  let y0 := max 0 (Int.tdiv (H * y0p) 100)
  let x1 := min W (Int.tdiv (W * x1p) 100)
  let y1 := min H (Int.tdiv (H * y1p) 100)
  (Img.crop img x0 y0 x1 y1, (x0, y0, x1, y1))

/-- Outcome of the HTTP POST to the n8n webhook, as observed by
`send_alert_to_n8n`: a response with some status code, a timeout
(`httpx.TimeoutException`) or any other network failure. -/
inductive DispatchOutcome where
  | response (code : ℕ)
  | timeout
  | netError
deriving DecidableEq, Repr

/-- The `try` block of `send_alert_to_n8n` (main.py 236-271): the POST is
issued, and `last_alert_time = now` is executed only in the branch
`response.status_code == 200`; on any other code, on timeout and on other
errors the state is left unchanged. The second component records that an
HTTP attempt was issued. -/
def dispatchStep (last_alert_time : Option ℚ) (now : ℚ)
    (outcome : DispatchOutcome) : Option ℚ × Bool :=
  match outcome with
  | .response code => if code = 200 then (some now, true) else (last_alert_time, true)
  | .timeout => (last_alert_time, true)
  | .netError => (last_alert_time, true)

/-- Source `send_alert_to_n8n` (main.py 220-271) as a state transition on
the module-global `last_alert_time`. Time is seconds (`total_seconds()`),
kept exact. Returns the new `last_alert_time` and whether an HTTP attempt
was issued. -/
def send_alert_to_n8n (cooldown : ℚ) (last_alert_time : Option ℚ) (now : ℚ)
    (outcome : DispatchOutcome) : Option ℚ × Bool :=
  match last_alert_time with
  | some t =>
    if now - t < cooldown then (some t, false)
    else dispatchStep (some t) now outcome
  | none => dispatchStep none now outcome

/-- The `DetectionResult` pydantic model (main.py 131-142). -/
structure DetectionResult where
  person_count : ℕ
  density : ℚ
  status : String
  bounding_boxes : List BoundingBox
  image_width : ℕ
  image_height : ℕ
  roi_area_m2 : ℚ
  density_warn_threshold : ℚ
  density_danger_threshold : ℚ
  message : String
deriving DecidableEq, Repr

/-- The density formula `person_count / max(roi_area_m2, 1e-6)`
(main.py 355). -/
def compute_density (person_count : ℕ) (roi_area_m2 : ℚ) : ℚ :=
  (person_count : ℚ) / max roi_area_m2 (1 / 1000000)

/-- Translation of one ROI-local box back to original-frame coordinates
(main.py 343-352). -/
def to_global (x0 y0 : ℤ) (b : BoundingBox) : BoundingBox :=
  { b with x1 := b.x1 + x0, y1 := b.y1 + y0, x2 := b.x2 + x0, y2 := b.y2 + y0 }

/-- The alert guard `ENABLE_N8N_ALERTS and status in ["warning", "danger"]`
(main.py 374). -/
def alert_gate (enable : Bool) (status : String) : Bool :=
  enable && (status == "warning" || status == "danger")

/-- The successful path of the `/api/detect` handler `detect_crowd_density`
(main.py 305-384) after image normalisation, with the YOLO model abstracted
as an oracle `det : Img → List RawDet`. It mirrors the source exactly: the
ROI branch is taken only when some bound differs from the full frame,
otherwise the uncropped image is used with offset (0, 0); local boxes are
translated by `to_global`; the status and message come from the unrounded
density while the `density` field is rounded to 2 decimals. -/
def detect_crowd_density (det : Img → List RawDet) (img : Img)
    (roi_area_m2 density_warn density_danger : ℚ)
    (roi_x0 roi_y0 roi_x1 roi_y1 : ℤ) : DetectionResult :=
  let original_width := img.width
  let original_height := img.height
  let step :=
    if roi_x0 > 0 ∨ roi_y0 > 0 ∨ roi_x1 < 100 ∨ roi_y1 < 100 then
      ((apply_roi img roi_x0 roi_y0 roi_x1 roi_y1).1,
       (apply_roi img roi_x0 roi_y0 roi_x1 roi_y1).2.1,
       (apply_roi img roi_x0 roi_y0 roi_x1 roi_y1).2.2.1)
    else
      (img, (0 : ℤ), (0 : ℤ))
  let pc := (detect_people (det step.1)).1
  let boxes := (detect_people (det step.1)).2
  let global_boxes := boxes.map (to_global step.2.1 step.2.2)
  let density := compute_density pc roi_area_m2
  let sm := calculate_density_status density density_warn density_danger
  { person_count := pc
    density := round2 density
    status := sm.1
    bounding_boxes := global_boxes
    image_width := original_width
    image_height := original_height
    roi_area_m2 := roi_area_m2
    density_warn_threshold := density_warn
    density_danger_threshold := density_danger
    message := sm.2 }

/-- Modelled from the spec (§8 item 6): the reference behaviour that the
full-frame ROI request must refine — process the whole image without any
crop, with offset (0, 0) applied to the boxes. -/
def detect_whole_image (det : Img → List RawDet) (img : Img)
    (roi_area_m2 density_warn density_danger : ℚ) : DetectionResult :=
  let pc := (detect_people (det img)).1
  let boxes := (detect_people (det img)).2
  let global_boxes := boxes.map (to_global 0 0)
  let density := compute_density pc roi_area_m2
  let sm := calculate_density_status density density_warn density_danger
  { person_count := pc
    density := round2 density
    status := sm.1
    bounding_boxes := global_boxes
    image_width := img.width
    image_height := img.height
    roi_area_m2 := roi_area_m2
    density_warn_threshold := density_warn
    density_danger_threshold := density_danger
    message := sm.2 }

/-- A Python exception value as the blanket handler sees it: either a
fastapi `HTTPException` (status and detail) or any other exception with
its `str(e)` rendering. `str` of an `HTTPException` is
`f"{status_code}: {detail}"`. -/
inductive PyExc where
  | http (status : ℕ) (detail : String)
  | generic (msg : String)
deriving DecidableEq, Repr

/-- Rendering `str(e)` of an exception. -/
def PyExc.str : PyExc → String
  | .http s d => toString s ++ ": " ++ d
  | .generic m => m

/-- An HTTP error response produced by raising `HTTPException` out of the
handler. -/
structure HttpError where
  status : ℕ
  detail : String
deriving DecidableEq, Repr

/-- The `try`/`except` shell of `detect_crowd_density` (main.py 305-390):
the body first raises `HTTPException(503, "模型尚未載入")` when the model is
absent, otherwise runs the pipeline (whose failure, if any, is an
exception `e`). The blanket `except Exception` catches every exception the
body raised — including that 503 `HTTPException`, which is a subclass of
`Exception` — and re-raises `HTTPException(500, f"偵測失敗: {e}")`. -/
def detect_endpoint (model_loaded : Bool)
    (pipeline : Except PyExc DetectionResult) : Except HttpError DetectionResult :=
  let body : Except PyExc DetectionResult :=
    if model_loaded then pipeline else .error (.http 503 "模型尚未載入")
  match body with
  | .ok r => .ok r
  | .error e => .error { status := 500, detail := "偵測失敗: " ++ e.str }

/-! ## Helper lemmas -/

/-- Truncating division by 100 is monotone on nonnegative numerators. -/
theorem tdiv100_mono {a b : ℤ} (ha : 0 ≤ a) (h : a ≤ b) :
    Int.tdiv a 100 ≤ Int.tdiv b 100 := by
  rw [Int.tdiv_eq_ediv ha (by norm_num), Int.tdiv_eq_ediv (ha.trans h) (by norm_num)]
  exact Int.ediv_le_ediv (by norm_num) h

/-- For in-range ordered percentages the clamped lower bound is at most the
clamped upper bound. -/
theorem roi_lower_le_upper {W p q : ℤ} (hW : 0 ≤ W) (hp : 0 ≤ p) (hpq : p ≤ q)
    (hq : q ≤ 100) :
    max 0 (Int.tdiv (W * p) 100) ≤ min W (Int.tdiv (W * q) 100) := by
  have h1 : 0 ≤ Int.tdiv (W * p) 100 :=
    Int.tdiv_nonneg (mul_nonneg hW hp) (by norm_num)
  have h2 : Int.tdiv (W * p) 100 ≤ Int.tdiv (W * q) 100 :=
    tdiv100_mono (mul_nonneg hW hp) (mul_le_mul_of_nonneg_left hpq hW)
  have h3 : Int.tdiv (W * q) 100 ≤ W := by
    have h4 : Int.tdiv (W * q) 100 ≤ Int.tdiv (W * 100) 100 :=
      tdiv100_mono (mul_nonneg hW (hp.trans hpq))
        (mul_le_mul_of_nonneg_left hq hW)
    simpa [Int.mul_tdiv_cancel W (by norm_num : (100 : ℤ) ≠ 0)] using h4
  rw [max_eq_right h1, min_eq_right h3]
  exact h2

/-! ## Claim theorems -/

/-- C1 counterexample: on a 100×100 image with reversed percentages
`x0p = 80 > x1p = 20`, `apply_roi` returns `x0 = 80` and `x1 = 20`, so the
claimed chain `0 ≤ x0 ≤ x1 ≤ W` fails at `x0 ≤ x1`. -/
theorem apply_roi_reversed_counterexample :
    ¬ ((apply_roi (Img.base 100 100 0) 80 0 20 100).2.1 ≤
       (apply_roi (Img.base 100 100 0) 80 0 20 100).2.2.2.1) := by
  decide

/-- C1 amended: `apply_roi` is total (never raises) and always returns
bounds with `0 ≤ x0`, `0 ≤ y0`, `x1 ≤ W` and `y1 ≤ H`; the full chains
`0 ≤ x0 ≤ x1 ≤ W` and `0 ≤ y0 ≤ y1 ≤ H` additionally hold whenever the
percentage inputs are in range and ordered (`0 ≤ x0p ≤ x1p ≤ 100` and
`0 ≤ y0p ≤ y1p ≤ 100`), but not for reversed or out-of-range inputs. -/
theorem apply_roi_clamp (img : Img) (x0p y0p x1p y1p : ℤ) :
    0 ≤ (apply_roi img x0p y0p x1p y1p).2.1 ∧
    0 ≤ (apply_roi img x0p y0p x1p y1p).2.2.1 ∧
    (apply_roi img x0p y0p x1p y1p).2.2.2.1 ≤ (img.width : ℤ) ∧
    (apply_roi img x0p y0p x1p y1p).2.2.2.2 ≤ (img.height : ℤ) ∧
    (0 ≤ x0p → x0p ≤ x1p → x1p ≤ 100 →
      (apply_roi img x0p y0p x1p y1p).2.1 ≤
        (apply_roi img x0p y0p x1p y1p).2.2.2.1) ∧
    (0 ≤ y0p → y0p ≤ y1p → y1p ≤ 100 →
      (apply_roi img x0p y0p x1p y1p).2.2.1 ≤
        (apply_roi img x0p y0p x1p y1p).2.2.2.2) := by
  refine ⟨?_, ?_, ?_, ?_, ?_, ?_⟩
  · simp [apply_roi]
  · simp [apply_roi]
  · simp [apply_roi]
  · simp [apply_roi]
  · intro h0 h1 h2
    simpa [apply_roi] using
      roi_lower_le_upper (Int.ofNat_nonneg img.width) h0 h1 h2
  · intro h0 h1 h2
    simpa [apply_roi] using
      roi_lower_le_upper (Int.ofNat_nonneg img.height) h0 h1 h2

/-- C1 witness: the amended chain at a concrete in-range ordered input. -/
theorem apply_roi_clamp_witness :
    (apply_roi (Img.base 640 480 0) 10 5 100 100).2.1 ≤
      (apply_roi (Img.base 640 480 0) 10 5 100 100).2.2.2.1 :=
  (apply_roi_clamp (Img.base 640 480 0) 10 5 100 100).2.2.2.2.1
    (by norm_num) (by norm_num) (by norm_num)

/-- C4: for every density and thresholds — with no precondition
`warn ≤ danger` — the classifier returns "danger" iff
`density ≥ danger_threshold`; otherwise "warning" iff
`density ≥ warn_threshold`; otherwise "normal". Thresholds are inclusive
lower bounds, and since the danger branch is checked first, a density at
or above `danger_threshold` is "danger" even when `warn > danger`. -/
theorem density_status_ladder (d warn danger : ℚ) :
    ((calculate_density_status d warn danger).1 = "danger" ↔ danger ≤ d) ∧
    (¬ danger ≤ d →
      ((calculate_density_status d warn danger).1 = "warning" ↔ warn ≤ d)) ∧
    (¬ danger ≤ d → ¬ warn ≤ d →
      (calculate_density_status d warn danger).1 = "normal") := by
  unfold calculate_density_status
  by_cases h1 : danger ≤ d <;> by_cases h2 : warn ≤ d <;> simp [h1, h2]

/-- C4 witness: density exactly at the warn threshold, below danger, is
classified "warning" (inclusive lower bound). -/
theorem density_status_ladder_witness :
    (calculate_density_status 5 5 (13 / 2)).1 = "warning" :=
  ((density_status_ladder 5 5 (13 / 2)).2.1 (by norm_num)).mpr (by norm_num)

/-- C7: the density divisor `max(roi_area_m2, 1e-6)` is strictly positive
for every area (zero and negative included), so the division is never by
zero and the computed density times the divisor recovers the person count;
concretely 10 people over 20 m² give density 1/2. -/
theorem density_formula_safe :
    (∀ (pc : ℕ) (area : ℚ),
      0 < max area (1 / 1000000) ∧
      compute_density pc area * max area (1 / 1000000) = pc) ∧
    compute_density 10 20 = 1 / 2 := by
  constructor
  · intro pc area
    have hpos : 0 < max area (1 / 1000000) :=
      lt_max_of_lt_right (by norm_num)
    exact ⟨hpos, div_mul_cancel₀ _ (ne_of_gt hpos)⟩
  · unfold compute_density
    norm_num

/-- C2 counterexample: with no prior alert, an attempt at time 5 that
times out leaves `last_alert_time` unset — the attempt's timestamp is not
recorded, so the next alert-worthy result is not throttled. -/
theorem throttle_attempt_counterexample :
    (send_alert_to_n8n 60 none 5 .timeout).2 = true ∧
    (send_alert_to_n8n 60 none 5 .timeout).1 ≠ some 5 := by
  constructor
  · rfl
  · simp [send_alert_to_n8n, dispatchStep]

/-- C2 amended: after an actual dispatch attempt (one not suppressed by
the cooldown), `last_alert_time` is set to the attempt's timestamp exactly
when the HTTP response has status 200; on any other status, on a timeout
and on any other error it is left unchanged — throttling is
delivery-confirmed-based, not attempt-based. -/
theorem throttle_update_on_success_only (cooldown now : ℚ)
    (last : Option ℚ) (o : DispatchOutcome)
    (hattempt : (send_alert_to_n8n cooldown last now o).2 = true) :
    (send_alert_to_n8n cooldown last now o).1 =
      if o = .response 200 then some now else last := by
  cases last with
  | none =>
    cases o with
    | response c =>
      by_cases hc : c = 200 <;> simp [send_alert_to_n8n, dispatchStep, hc]
    | timeout => simp [send_alert_to_n8n, dispatchStep]
    | netError => simp [send_alert_to_n8n, dispatchStep]
  | some t =>
    by_cases hlt : now - t < cooldown
    · exfalso
      simp [send_alert_to_n8n, hlt] at hattempt
    · cases o with
      | response c =>
        by_cases hc : c = 200 <;>
          simp [send_alert_to_n8n, dispatchStep, hlt, hc]
      | timeout => simp [send_alert_to_n8n, dispatchStep, hlt]
      | netError => simp [send_alert_to_n8n, dispatchStep, hlt]

/-- C2 witness: a non-throttled attempt answered with HTTP 500 leaves the
previous timestamp in place. -/
theorem throttle_update_on_success_only_witness :
    (send_alert_to_n8n 60 (some 0) 61 (.response 500)).1 = some 0 := by
  have h := throttle_update_on_success_only 60 61 (some 0) (.response 500)
    (by norm_num [send_alert_to_n8n, dispatchStep])
  simpa using h

/-- C6 counterexample: with cooldown 60 and a dispatch recorded at time 0,
an alert-worthy result at time 61 does trigger a dispatch attempt, but
when the delivery fails (HTTP 500) the window is not reset:
`last_alert_time` stays 0 instead of becoming 61, contradicting
"is dispatched and resets the window". -/
theorem cooldown_reset_counterexample :
    (send_alert_to_n8n 60 (some 0) 61 (.response 500)).2 = true ∧
    (send_alert_to_n8n 60 (some 0) 61 (.response 500)).1 ≠ some 61 := by
  norm_num [send_alert_to_n8n, dispatchStep]

/-- C6 amended: with cooldown C and a dispatch recorded at t0, an
alert-worthy result at time t with t − t0 < C is silently dropped — no
HTTP attempt, state unchanged — and one with t − t0 ≥ C triggers a
dispatch attempt; the window resets to t exactly when the delivery
succeeds with HTTP 200, and stays at t0 otherwise. -/
theorem cooldown_window (C t0 t : ℚ) (o : DispatchOutcome) :
    (t - t0 < C → send_alert_to_n8n C (some t0) t o = (some t0, false)) ∧
    (C ≤ t - t0 →
      (send_alert_to_n8n C (some t0) t o).2 = true ∧
      (o = .response 200 → (send_alert_to_n8n C (some t0) t o).1 = some t) ∧
      (o ≠ .response 200 →
        (send_alert_to_n8n C (some t0) t o).1 = some t0)) := by
  constructor
  · intro h
    simp [send_alert_to_n8n, h]
  · intro h
    have h' : ¬ (t - t0 < C) := not_lt.mpr h
    refine ⟨?_, ?_, ?_⟩
    · cases o with
      | response c =>
        by_cases hc : c = 200 <;>
          simp [send_alert_to_n8n, dispatchStep, h', hc]
      | timeout => simp [send_alert_to_n8n, dispatchStep, h']
      | netError => simp [send_alert_to_n8n, dispatchStep, h']
    · intro ho
      subst ho
      simp [send_alert_to_n8n, dispatchStep, h']
    · intro ho
      cases o with
      | response c =>
        have hc : c ≠ 200 := by
          intro hc
          exact ho (by rw [hc])
        simp [send_alert_to_n8n, dispatchStep, h', hc]
      | timeout => simp [send_alert_to_n8n, dispatchStep, h']
      | netError => simp [send_alert_to_n8n, dispatchStep, h']

/-- C6 witness: cooldown 60 — an alert 30s after the dispatch at time 0 is
suppressed with the state unchanged; one at 61s is dispatched and, the
delivery succeeding, resets the window to 61. -/
theorem cooldown_window_witness :
    send_alert_to_n8n 60 (some 0) 30 (.response 200) = (some 0, false) ∧
    (send_alert_to_n8n 60 (some 0) 61 (.response 200)).1 = some 61 :=
  ⟨(cooldown_window 60 0 30 (.response 200)).1 (by norm_num),
   ((cooldown_window 60 0 61 (.response 200)).2 (by norm_num)).2.1 rfl⟩

/-- C3 (code bug): when the model is not loaded the `try` body raises
`HTTPException(503)`, but the handler's own blanket `except Exception`
catches it and re-raises a generic `HTTPException(500)`, so the caller
observes status 500 (detail "偵測失敗: 503: 模型尚未載入") whatever the rest of
the pipeline would have done — the service-unavailable condition is never
surfaced distinctly from the generic processing failure. -/
theorem detect_model_missing_returns_500
    (pipeline : Except PyExc DetectionResult) :
    detect_endpoint false pipeline =
      .error { status := 500,
               detail := "偵測失敗: " ++ (PyExc.http 503 "模型尚未載入").str } := rfl

/-- Characterisation of the `detect_people` fold: it returns the class-0
detections mapped to boxes, with the count equal to their number. -/
theorem detect_people_eq (dets : List RawDet) :
    detect_people dets =
      (((dets.filter (fun d => d.cls == 0)).map toBox).length,
       (dets.filter (fun d => d.cls == 0)).map toBox) := by
  suffices h : ∀ (c : ℕ) (l : List BoundingBox),
      dets.foldl
        (fun acc d => if d.cls = 0 then (acc.1 + 1, acc.2 ++ [toBox d]) else acc)
        (c, l) =
      (c + ((dets.filter (fun d => d.cls == 0)).map toBox).length,
       l ++ (dets.filter (fun d => d.cls == 0)).map toBox) by
    simpa [detect_people] using h 0 []
  induction dets with
  | nil => simp
  | cons d ds ih =>
    intro c l
    by_cases hcls : d.cls = 0
    · simp [List.filter_cons, hcls, ih, Nat.add_comm, Nat.add_assoc,
        Nat.add_left_comm]
    · simp [List.filter_cons, hcls, ih]

/-- C9: `detect_people` keeps exactly the class-0 (person) detections —
every returned box originates from a person detection even when the model
output contains other classes — and the returned count equals the number
of returned boxes; the same count-equals-boxes invariant holds of every
`DetectionResult` the detect pipeline produces. -/
theorem person_filter_count_invariant :
    (∀ dets : List RawDet,
      (detect_people dets).1 = (detect_people dets).2.length ∧
      ∀ b ∈ (detect_people dets).2, ∃ d ∈ dets, d.cls = 0 ∧ b = toBox d) ∧
    (∀ (det : Img → List RawDet) (img : Img) (area warn danger : ℚ)
        (rx0 ry0 rx1 ry1 : ℤ),
      (detect_crowd_density det img area warn danger
          rx0 ry0 rx1 ry1).person_count =
        (detect_crowd_density det img area warn danger
          rx0 ry0 rx1 ry1).bounding_boxes.length) := by
  constructor
  · intro dets
    constructor
    · rw [detect_people_eq]
    · intro b hb
      rw [detect_people_eq] at hb
      simp only [List.mem_map, List.mem_filter, beq_iff_eq] at hb
      obtain ⟨d, ⟨hd, hcls⟩, rfl⟩ := hb
      exact ⟨d, hd, hcls, rfl⟩
  · intro det img area warn danger rx0 ry0 rx1 ry1
    simp only [detect_crowd_density, List.length_map]
    rw [detect_people_eq]

/-- C9 witness: on a concrete detector output holding one person and one
non-person detection, the invariant instantiates — the sole returned box
originates from the class-0 detection, and the count equals the box
count. -/
theorem person_filter_count_invariant_witness :
    (detect_people [RawDet.mk 0 1 2 3 4 1, RawDet.mk 7 5 6 7 8 1]).1 =
      (detect_people [RawDet.mk 0 1 2 3 4 1, RawDet.mk 7 5 6 7 8 1]).2.length ∧
    ∃ d ∈ [RawDet.mk 0 1 2 3 4 1, RawDet.mk 7 5 6 7 8 1],
      d.cls = 0 ∧ BoundingBox.mk 1 2 3 4 1 = toBox d :=
  ⟨(person_filter_count_invariant.1
      [RawDet.mk 0 1 2 3 4 1, RawDet.mk 7 5 6 7 8 1]).1,
   (person_filter_count_invariant.1
      [RawDet.mk 0 1 2 3 4 1, RawDet.mk 7 5 6 7 8 1]).2
     (BoundingBox.mk 1 2 3 4 1) (by simp [detect_people, toBox])⟩

/-- C5: when an ROI is applied, the final result's box list is exactly the
detector's ROI-local box list mapped through `to_global x0 y0`, where
(x0, y0) is the ROI's absolute top-left offset, and `to_global` adds
(x0, y0) to both corners while keeping the confidence. -/
theorem roi_boxes_translated (det : Img → List RawDet) (img : Img)
    (area warn danger : ℚ) (rx0 ry0 rx1 ry1 : ℤ)
    (hroi : rx0 > 0 ∨ ry0 > 0 ∨ rx1 < 100 ∨ ry1 < 100) :
    (detect_crowd_density det img area warn danger
        rx0 ry0 rx1 ry1).bounding_boxes =
      ((detect_people (det (apply_roi img rx0 ry0 rx1 ry1).1)).2).map
        (to_global (apply_roi img rx0 ry0 rx1 ry1).2.1
                   (apply_roi img rx0 ry0 rx1 ry1).2.2.1) ∧
    ∀ (x0 y0 : ℤ) (b : BoundingBox),
      to_global x0 y0 b =
        { x1 := b.x1 + x0, y1 := b.y1 + y0, x2 := b.x2 + x0, y2 := b.y2 + y0,
          confidence := b.confidence } := by
  constructor
  · simp only [detect_crowd_density, if_pos hroi]
  · intro x0 y0 b
    rfl

/-- C5 witness: a local box (10,10,50,50) inside an ROI whose absolute
offset is (100,50) — image 1000×1000, ROI percentages (10,5,100,100) — is
reported as (110,60,150,100). -/
theorem roi_boxes_translated_witness :
    (detect_crowd_density (fun _ => [RawDet.mk 0 10 10 50 50 1])
        (Img.base 1000 1000 0) 20 5 (13 / 2) 10 5 100 100).bounding_boxes =
      [BoundingBox.mk 110 60 150 100 1] := by
  rw [(roi_boxes_translated (fun _ => [RawDet.mk 0 10 10 50 50 1])
        (Img.base 1000 1000 0) 20 5 (13 / 2) 10 5 100 100 (by norm_num)).1]
  have hx : (apply_roi (Img.base 1000 1000 0) 10 5 100 100).2.1 = 100 := by
    decide
  have hy : (apply_roi (Img.base 1000 1000 0) 10 5 100 100).2.2.1 = 50 := by
    decide
  rw [hx, hy]
  simp [detect_people, toBox, to_global]

/-- C8: requesting the full-frame ROI bounds (0,0,100,100) produces a
result identical to processing the whole image without any crop: the
source's else branch passes the uncropped image straight to the detector
with offset (0,0), so count, boxes and every other field coincide with the
no-crop reference behaviour. -/
theorem full_frame_roi_equiv (det : Img → List RawDet) (img : Img)
    (area warn danger : ℚ) :
    detect_crowd_density det img area warn danger 0 0 100 100 =
      detect_whole_image det img area warn danger := by
  simp [detect_crowd_density, detect_whole_image]

/-- C10: the status, message and alert gating of the detect operation are
computed from the unrounded density `person_count / max(roi_area_m2, 1e-6)`
while the `density` field of the returned result is that value rounded to
2 decimals; consequently there are inputs for which the returned density
field is strictly below the warn threshold while the returned status is
"warning". -/
theorem status_from_unrounded_density :
    (∀ (det : Img → List RawDet) (img : Img) (area warn danger : ℚ)
        (rx0 ry0 rx1 ry1 : ℤ),
      (detect_crowd_density det img area warn danger
          rx0 ry0 rx1 ry1).density =
        round2 (compute_density
          (detect_crowd_density det img area warn danger
            rx0 ry0 rx1 ry1).person_count area) ∧
      (detect_crowd_density det img area warn danger rx0 ry0 rx1 ry1).status =
        (calculate_density_status
          (compute_density
            (detect_crowd_density det img area warn danger
              rx0 ry0 rx1 ry1).person_count area) warn danger).1 ∧
      (detect_crowd_density det img area warn danger rx0 ry0 rx1 ry1).message =
        (calculate_density_status
          (compute_density
            (detect_crowd_density det img area warn danger
              rx0 ry0 rx1 ry1).person_count area) warn danger).2 ∧
      ∀ enable : Bool,
        alert_gate enable
            (detect_crowd_density det img area warn danger
              rx0 ry0 rx1 ry1).status =
          alert_gate enable
            (calculate_density_status
              (compute_density
                (detect_crowd_density det img area warn danger
                  rx0 ry0 rx1 ry1).person_count area) warn danger).1) ∧
    (∃ (det : Img → List RawDet) (img : Img) (area warn danger : ℚ),
      (detect_crowd_density det img area warn danger 0 0 100 100).density <
        warn ∧
      (detect_crowd_density det img area warn danger 0 0 100 100).status =
        "warning") := by
  constructor
  · intro det img area warn danger rx0 ry0 rx1 ry1
    exact ⟨rfl, rfl, rfl, fun _ => rfl⟩
  · refine ⟨fun _ => [RawDet.mk 0 0 0 1 1 1], Img.base 10 10 0, 300,
      3 / 1000, 100, ?_, ?_⟩
    · have h1 : compute_density 1 300 = 1 / 300 := by
        unfold compute_density
        norm_num
      have h2 : roundHalfEven ((1 / 300 : ℚ) * 100) = 0 := by
        have h3 : ((1 / 300 : ℚ) * 100) = 1 / 3 := by norm_num
        rw [h3]
        unfold roundHalfEven
        norm_num
      have h5 : round2 (1 / 300 : ℚ) = 0 := by
        unfold round2
        rw [h2]
        norm_num
      have h4 : (detect_crowd_density (fun _ => [RawDet.mk 0 0 0 1 1 1])
          (Img.base 10 10 0) 300 (3 / 1000) 100 0 0 100 100).density =
          round2 (compute_density 1 300) := rfl
      rw [h4, h1, h5]
      norm_num
    · have h1 : compute_density 1 300 = 1 / 300 := by
        unfold compute_density
        norm_num
      have h6 : (detect_crowd_density (fun _ => [RawDet.mk 0 0 0 1 1 1])
          (Img.base 10 10 0) 300 (3 / 1000) 100 0 0 100 100).status =
          (calculate_density_status (compute_density 1 300)
            (3 / 1000) 100).1 := rfl
      rw [h6, h1]
      unfold calculate_density_status
      norm_num

end CrowdDensity
